import Mathlib

/-!
Shallow embedding of the token-lifecycle core of the python-graph-client
repository (file `src/graphqlclient/client.py`, class `GraphClient`).

Modelling conventions:
* Python exceptions become an explicit error type `PyErr`; an operation
  returns `List Event × Except (PyErr × ClientState) α`.  The error case
  carries the client state at the moment the exception was raised, because
  Python keeps mutations performed before the raise (`__close_session`
  catches the exception of `__delete_token` and continues with that state).
* External effects (file reads/writes, HTTP calls) are recorded as `Event`s
  in the order the source performs them; the outcome of each external call
  is supplied by an `Env` value (one construction / renew / close / query
  performs at most one revoke DELETE, one mint POST and one query POST, so a
  single outcome per kind suffices for one operation).
* Wall-clock time and file modification times are naturals (seconds).
  `datetime.timedelta(hours=Constants.TOKEN_LIFESPAN)` is 3600 seconds.
* `requests` semantics: `raise_for_status()` raises exactly for status codes
  `400 <= s < 600`; `response.json()` raises a decode error when the body is
  not valid JSON (modelled by `Option`).
* Logging, TLS verification, proxies and timeouts are pass-through
  transport options with no effect on control flow; the option values are
  kept in the state but produce no events.
* Paths are treated as already absolute (`os.path.abspath` is the identity
  on absolute paths); `pathlib`'s hidden-file corner case for `Path.stem`
  (a leading dot with no other dot) is not modelled because no claim
  depends on the cache-file name.
-/

namespace GraphQLClient

/-- JSON values, used for GraphQL request/response bodies. -/
inductive Json where
  | null
  | bool (b : Bool)
  | num (n : Int)
  | str (s : String)
  | arr (elems : List Json)
  | obj (fields : List (String × Json))

/-- Python exceptions that the source can raise on the modelled paths. -/
inductive PyErr where
  /-- `KeyError` from a `dict[...]` access on a missing key. -/
  | keyError (key : String)
  /-- `AttributeError` from reading an instance attribute never assigned
  (the class only annotates `__files`, it gives it no default value). -/
  | attributeError (attr : String)
  /-- `requests.exceptions.HTTPError` from `raise_for_status()`. -/
  | httpError (status : Nat)
  /-- transport-level failure of a `requests` call
  (`ConnectionError`/`Timeout`/...). -/
  | connectionError
  /-- `json.JSONDecodeError` from `json.loads` / `response.json()`. -/
  | jsonDecodeError
  /-- `OSError`/`IOError` from a file read. -/
  | ioError
  deriving Repr, DecidableEq

/-- Outcome of one HTTP exchange, as seen by the client. -/
structure HttpResp where
  transportErr : Bool
  status : Nat
  deriving Repr, DecidableEq

/-- `requests.Response.raise_for_status` raises exactly for
`400 <= status_code < 600`. -/
def statusRaises (s : Nat) : Bool :=
  decide (400 ≤ s) && decide (s < 600)

/-- Observable external effects, in the order the source performs them. -/
inductive Event where
  /-- `self.__files.key.read_text(...)` in `__read_key_file`. -/
  | readKeyFile (path : String)
  /-- `self.__files.token.read_text(...)` in `__read_token_file`. -/
  | readTokenFile (path : String)
  /-- `requests.delete(f"{base_url}/{session}")` in `__delete_token`. -/
  | httpDelete (url : String)
  /-- `requests.post(session_url, json=payload)` in
  `__get_access_token_keyfile`. -/
  | httpPost (url : String) (payload : List (String × String))
  /-- `self.__files.token.write_text(token)` in
  `__get_access_token_keyfile`. -/
  | writeTokenFile (path : String) (content : String)
  /-- removal of the cache file.  No function of the source ever performs
  it (`client.py` contains no `unlink`/`os.remove` call); the constructor
  exists so that statements about file deletion can be expressed. -/
  | deleteTokenFile (path : String)
  /-- `requests.post(f"{base_url}/{graphql}", json=body)` in `query`. -/
  | httpQueryPost (url : String) (body : List (String × Json))

/-- `Constants.TOKEN_LIFESPAN` is 1 hour, i.e. 3600 seconds. -/
def TOKEN_LIFESPAN_SECONDS : Nat := 3600

/-- `re.sub(r"/[^/]*$", "", s)`: drop the last `/`-delimited segment
(including the `/`); a string without `/` is unchanged. -/
def stripLastSegment (s : String) : String :=
  let parts := s.splitOn "/"
  if parts.length ≤ 1 then s else String.intercalate "/" parts.dropLast

/-- Final `/`-delimited segment of a path (`Path.name`). -/
def lastSegment (s : String) : String :=
  ((s.splitOn "/").getLastD "")

/-- `Path.stem` on a file name: drop the final `.`-suffix when present. -/
def stem (name : String) : String :=
  let parts := name.splitOn "."
  if parts.length ≤ 1 then name else String.intercalate "." parts.dropLast

/-- The `Files` named tuple: credential-file path and cache-file path. -/
structure Files where
  key : String
  token : String
  deriving Repr, DecidableEq

/-- `Files.set_key_file`: the cache file is the sibling
`<parent>/<stem>.token` of the credential file. -/
def Files.set_key_file (path : String) : Files :=
  { key := path,
    token := stripLastSegment path ++ "/" ++ stem (lastSegment path)
             ++ ".token" }

/-- The `Options` named tuple captured at construction. -/
structure Options where
  verify : Bool
  proxies : Option (List (String × String))
  session : String
  graphql : String
  manage_token : Bool
  keep_token : Bool
  verbose : Bool
  deriving Repr, DecidableEq

/-- The mutable fields of a `GraphClient` instance.  The class-level
defaults are `__base_url = ""`, `__json_key = {}`, `__token = ""`; `__files`
is only annotated, never given a default, hence `Option`. -/
structure ClientState where
  base_url : String := ""
  json_key : List (String × String) := []
  token : String := ""
  files : Option Files := none
  options : Options
  deriving Repr, DecidableEq

/-- Behaviour of the outside world during one operation: content of the two
files, current wall-clock time, and the outcome of each kind of HTTP call
the operation may perform. -/
structure Env where
  /-- combined result of `read_text` + `json.loads` on the credential file
  (the credential JSON is a `dict[str, str]`). -/
  keyJson : Except PyErr (List (String × String))
  /-- cache file: `none` when `exists()` is false, otherwise its text and
  its `os.path.getmtime` in seconds. -/
  tokenFile : Option (String × Nat)
  /-- `datetime.datetime.today()` in seconds. -/
  now : Nat
  /-- outcome of the revoke `DELETE`. -/
  revoke : HttpResp
  /-- outcome of the mint `POST`. -/
  mintResp : HttpResp
  /-- `response.json()` of the mint response: `none` when the body is not a
  JSON object; only string values are relevant (the single field read is
  `access_token`, a string). -/
  mintBody : Option (List (String × String))
  /-- outcome of the query `POST`. -/
  queryResp : HttpResp
  /-- `response.json()` of the query response (`none`: not decodable). -/
  queryBody : Option Json

/-- Result of one operation: trace of external effects, and either the new
state or the exception raised together with the state at that moment. -/
abbrev OpResult (α : Type) := List Event × Except (PyErr × ClientState) α

/-- `GraphClient.__read_key_file`: read and parse the credential file, keep
the parsed dict, derive the base URL from `access_token_uri`. -/
def read_key_file (env : Env) (st : ClientState) : OpResult ClientState :=
  match st.files with
  | none => ([], .error (.attributeError "_GraphClient__files", st))
  | some f =>
    match env.keyJson with
    | .error e => ([.readKeyFile f.key], .error (e, st))
    | .ok jk =>
      let st1 := { st with json_key := jk }
      match jk.lookup "access_token_uri" with
      | none =>
        ([.readKeyFile f.key], .error (.keyError "access_token_uri", st1))
      | some uri =>
        ([.readKeyFile f.key], .ok { st1 with base_url := stripLastSegment uri })

/-- `GraphClient.__get_headers`: recomputed from the current token;
the `Authorization` header is present iff the token string is non-empty. -/
def get_headers (st : ClientState) : List (String × String) :=
  if st.token ≠ "" then
    [("Content-Type", "application/json"),
     ("Accept", "application/json"),
     ("Authorization", "Bearer " ++ st.token)]
  else
    [("Content-Type", "application/json"),
     ("Accept", "application/json")]

/-- `GraphClient.__delete_token`: `DELETE {base_url}/{session}`, then
`raise_for_status()`, and only after success clear the in-memory token. -/
def delete_token (env : Env) (st : ClientState) : OpResult ClientState :=
  let tr := [Event.httpDelete (st.base_url ++ "/" ++ st.options.session)]
  if env.revoke.transportErr then
    (tr, .error (.connectionError, st))
  else if statusRaises env.revoke.status then
    (tr, .error (.httpError env.revoke.status, st))
  else
    (tr, .ok { st with token := "" })

/-- `GraphClient.__close_session`: call `__delete_token` and swallow every
exception (log only).  It therefore never raises and returns the state the
inner call left behind. -/
def close_session_priv (env : Env) (st : ClientState) :
    List Event × ClientState :=
  match delete_token env st with
  | (tr, .ok st1) => (tr, st1)
  | (tr, .error (_, st1)) => (tr, st1)

/-- `GraphClient.__read_token_file`: `false` when no cache file exists;
otherwise adopt the trimmed file content as the token, then, when
`manage_token` is set and the file is older than the lifespan, revoke
best-effort and report `false`; in every other case report `true`. -/
def read_token_file (env : Env) (st : ClientState) :
    OpResult (ClientState × Bool) :=
  match st.files with
  | none => ([], .error (.attributeError "_GraphClient__files", st))
  | some f =>
    match env.tokenFile with
    | none => ([], .ok (st, false))
    | some (text, mtime) =>
      let st1 := { st with token := text.trim }
      if st1.options.manage_token ∧ mtime + TOKEN_LIFESPAN_SECONDS < env.now
      then
        let r := close_session_priv env st1
        (Event.readTokenFile f.token :: r.1, .ok (r.2, false))
      else
        ([Event.readTokenFile f.token], .ok (st1, true))

/-- `GraphClient.__get_access_token_keyfile`: look up the endpoint and the
three payload fields (in source order, each a possible `KeyError` before
any request is sent), `POST` the payload, `raise_for_status()`, decode,
read `access_token`, and persist the token iff `keep_token`. -/
def get_access_token_keyfile (env : Env) (st : ClientState) :
    OpResult ClientState :=
  match st.json_key.lookup "access_token_uri" with
  | none => ([], .error (.keyError "access_token_uri", st))
  | some session_url =>
  match st.json_key.lookup "client_id" with
  | none => ([], .error (.keyError "client_id", st))
  | some cid =>
  match st.json_key.lookup "client_secret" with
  | none => ([], .error (.keyError "client_secret", st))
  | some csec =>
  match st.json_key.lookup "name" with
  | none => ([], .error (.keyError "name", st))
  | some nm =>
    let payload := [("client_id", cid), ("client_secret", csec),
                    ("name", nm)]
    let tr := [Event.httpPost session_url payload]
    if env.mintResp.transportErr then
      (tr, .error (.connectionError, st))
    else if statusRaises env.mintResp.status then
      (tr, .error (.httpError env.mintResp.status, st))
    else
      match env.mintBody with
      | none => (tr, .error (.jsonDecodeError, st))
      | some obj =>
        match obj.lookup "access_token" with
        | none => (tr, .error (.keyError "access_token", st))
        | some tok =>
          let st1 := { st with token := tok }
          if st1.options.keep_token then
            match st1.files with
            | none =>
              (tr, .error (.attributeError "_GraphClient__files", st1))
            | some f =>
              (tr ++ [Event.writeTokenFile f.token tok], .ok st1)
          else
            (tr, .ok st1)

/-- `GraphClient.__manage_session`: read the key file, then
`if manage_token and (not keep_token or not self.__read_token_file())`
mint a fresh token (note the short circuit: the cache is read only when
`manage_token` and `keep_token` both hold); finally clear `__json_key`. -/
def manage_session (env : Env) (st : ClientState) : OpResult ClientState :=
  match read_key_file env st with
  | (tr, .error e) => (tr, .error e)
  | (tr, .ok st1) =>
    if st1.options.manage_token then
      if st1.options.keep_token then
        match read_token_file env st1 with
        | (tr2, .error e) => (tr ++ tr2, .error e)
        | (tr2, .ok (st2, found)) =>
          if found then
            (tr ++ tr2, .ok { st2 with json_key := [] })
          else
            match get_access_token_keyfile env st2 with
            | (tr3, .error e) => (tr ++ tr2 ++ tr3, .error e)
            | (tr3, .ok st3) =>
              (tr ++ tr2 ++ tr3, .ok { st3 with json_key := [] })
      else
        match get_access_token_keyfile env st1 with
        | (tr3, .error e) => (tr ++ tr3, .error e)
        | (tr3, .ok st3) => (tr ++ tr3, .ok { st3 with json_key := [] })
    else
      (tr, .ok { st1 with json_key := [] })

/-- The keyword arguments `GraphClient.__init__` recognises. -/
structure Kwargs where
  insecure : Option Bool := none
  proxies : Option (List (String × String)) := none
  session : Option String := none
  graphql : Option String := none
  manage_token : Option Bool := none
  keep_token : Option Bool := none
  base_url : Option String := none
  verbose : Option Bool := none

/-- Python truthiness of `Optional[str]`: `None` and `""` are falsy. -/
def keyfileTruthy : Option String → Bool
  | none => false
  | some s => !(s == "")

/-- `GraphClient.__init__`: build the `Options` (defaults of
`manage_token`/`keep_token` are the truthiness of `json_keyfile`), then
either run `__manage_session` (truthy key file) or take `base_url` from
the keyword arguments (anonymous mode). -/
def init (json_keyfile : Option String) (kw : Kwargs) (env : Env) :
    OpResult ClientState :=
  let opts : Options :=
    { verify := !(kw.insecure.getD false),
      proxies := kw.proxies,
      session := kw.session.getD "session",
      graphql := kw.graphql.getD "graphql",
      manage_token := kw.manage_token.getD (keyfileTruthy json_keyfile),
      keep_token := kw.keep_token.getD (keyfileTruthy json_keyfile),
      verbose := kw.verbose.getD false }
  let st0 : ClientState := { options := opts }
  if keyfileTruthy json_keyfile then
    manage_session env
      { st0 with files := some (Files.set_key_file (json_keyfile.getD "")) }
  else
    ([], .ok { st0 with base_url := kw.base_url.getD "" })

/-- `GraphClient.renew_token`: re-read the key file, revoke best-effort
(`__close_session` swallows failures), mint, clear `__json_key`. -/
def renew_token (env : Env) (st : ClientState) : OpResult ClientState :=
  match read_key_file env st with
  | (tr, .error e) => (tr, .error e)
  | (tr, .ok st1) =>
    let r := close_session_priv env st1
    match get_access_token_keyfile env r.2 with
    | (tr3, .error e) => (tr ++ r.1 ++ tr3, .error e)
    | (tr3, .ok st3) => (tr ++ r.1 ++ tr3, .ok { st3 with json_key := [] })

/-- `GraphClient.close_session` (public): when `manage_token` is unset or
`keep_token` is set, log and return; otherwise run `__close_session`.
No path raises, so the result type carries no exception. -/
def close_session (env : Env) (st : ClientState) :
    List Event × ClientState :=
  if ¬st.options.manage_token ∨ st.options.keep_token then
    ([], st)
  else if ¬st.options.keep_token then
    close_session_priv env st
  else
    ([], st)

/-- `GraphClient.query`: body is `{"query": q}` plus `variables` only when
the supplied dict is truthy (non-`None` and non-empty); `POST` to
`{base_url}/{graphql}`, `raise_for_status()`, return `response.json()`. -/
def query (env : Env) (st : ClientState) (my_query : String)
    (my_variables : Option (List (String × Json))) :
    List Event × Except (PyErr × ClientState) Json :=
  let body : List (String × Json) :=
    match my_variables with
    | some vs =>
      if vs.isEmpty then [("query", .str my_query)]
      else [("query", .str my_query), ("variables", .obj vs)]
    | none => [("query", .str my_query)]
  let tr := [Event.httpQueryPost
    (st.base_url ++ "/" ++ st.options.graphql) body]
  if env.queryResp.transportErr then
    (tr, .error (.connectionError, st))
  else if statusRaises env.queryResp.status then
    (tr, .error (.httpError env.queryResp.status, st))
  else
    match env.queryBody with
    | none => (tr, .error (.jsonDecodeError, st))
    | some j => (tr, .ok j)

/-! ### Trace observations and concrete fixtures -/

/-- Is the event the token-mint `POST`? -/
def Event.isMint : Event → Bool
  | .httpPost .. => true
  | _ => false

/-- Is the event the revoke `DELETE`? -/
def Event.isRevoke : Event → Bool
  | .httpDelete _ => true
  | _ => false

/-- Is the event a removal of the cache file? -/
def Event.isFileDelete : Event → Bool
  | .deleteTokenFile _ => true
  | _ => false

/-- Is the event a read of the cache file? -/
def Event.isTokenRead : Event → Bool
  | .readTokenFile _ => true
  | _ => false

/-- Session-endpoint traffic (revoke `DELETE` or mint `POST`). -/
def Event.isSessionHttp (e : Event) : Bool := e.isRevoke || e.isMint

/-- Number of mint requests in a trace. -/
def countMints (tr : List Event) : Nat := (tr.filter Event.isMint).length

/-- Number of revoke requests in a trace. -/
def countRevokes (tr : List Event) : Nat :=
  (tr.filter Event.isRevoke).length

/-- A trace that contains no removal of the cache file. -/
def noFileDelete (tr : List Event) : Bool :=
  tr.all fun e => !e.isFileDelete

/-- On-disk content, one file per path. -/
abbrev FS := String → Option String

/-- Effect of a single event on the disk. -/
def applyEvent (fs : FS) : Event → FS
  | .writeTokenFile p c => fun q => if q = p then some c else fs q
  | .deleteTokenFile p => fun q => if q = p then none else fs q
  | _ => fs

/-- Replay a trace over an initial disk. -/
def applyTrace (fs : FS) (tr : List Event) : FS := tr.foldl applyEvent fs

/-- Session token of a successful operation (`none` when it raised). -/
def resultToken : OpResult ClientState → Option String
  | (_, .ok st) => some st.token
  | (_, .error _) => none

/-- Exception of a failed operation (`none` when it succeeded). -/
def resultErr {α : Type} : OpResult α → Option PyErr
  | (_, .error (e, _)) => some e
  | (_, .ok _) => none

/-- A 200 response. -/
def okResp : HttpResp := { transportErr := false, status := 200 }

/-- A well-formed credential dict. -/
def kj0 : List (String × String) :=
  [("client_id", "a"), ("client_secret", "b"), ("name", "c"),
   ("access_token_uri", "https://api.example.com/oauth/token")]

/-- A benign environment: readable credential file, no cache file, every
endpoint healthy, mint returns token `T1`. -/
def baseEnv : Env :=
  { keyJson := .ok kj0,
    tokenFile := none,
    now := 1000000,
    revoke := okResp,
    mintResp := okResp,
    mintBody := some [("access_token", "T1")],
    queryResp := okResp,
    queryBody := some (.obj []) }

/-- Options of a default authenticated construction
(`GraphClient("/cfg/key.json")`). -/
def optsAuth : Options :=
  { verify := true, proxies := none, session := "session",
    graphql := "graphql", manage_token := true, keep_token := true,
    verbose := false }

/-- A client as produced by a default authenticated construction, holding
token `OLD`. -/
def stAuth : ClientState :=
  { base_url := "https://api.example.com/oauth", json_key := [],
    token := "OLD", files := some ⟨"/cfg/key.json", "/cfg/key.token"⟩,
    options := optsAuth }

/-- A client constructed with `keep_token=False` (ephemeral token),
holding token `T1`. -/
def stEphemeral : ClientState :=
  { stAuth with
    token := "T1",
    options := { optsAuth with keep_token := false } }

/-- A client as produced by
`GraphClient(base_url="https://fruits-api.netlify.app")`. -/
def anonState : ClientState :=
  { base_url := "https://fruits-api.netlify.app",
    options := { verify := true, proxies := none, session := "session",
                 graphql := "graphql", manage_token := false,
                 keep_token := false, verbose := false } }

/-- A disk holding an earlier token `oldtok` in the cache file. -/
def fsOld : FS := fun p => if p = "/cfg/key.token" then some "oldtok" else none

/-- Environment with a very stale cache file (mtime 0, now far later). -/
def envStale : Env := { baseEnv with tokenFile := some ("old-cached", 0) }

/-- Environment with a cache file inside its lifespan
(`999000 + 3600 > 1000000`). -/
def envFresh : Env :=
  { baseEnv with tokenFile := some ("cached-tok\n", 999000) }

/-- Environment whose credential file carries a well-formed
`access_token_uri` but empty strings for the three payload fields: the
mint `POST` goes to a valid URL, so the endpoint is free to answer 200
with a token. -/
def envEmptyCredValues : Env :=
  { baseEnv with
    keyJson := .ok [("client_id", ""), ("client_secret", ""),
      ("name", ""),
      ("access_token_uri", "https://api.example.com/oauth/token")] }

/-- Environment whose credential file lacks `access_token_uri`. -/
def envNoUri : Env := { baseEnv with keyJson := .ok [("client_id", "a")] }

/-- Environment whose credential file lacks `client_id`. -/
def envNoCid : Env :=
  { baseEnv with keyJson := .ok [("access_token_uri", "u")] }

/-- Environment where the revoke endpoint answers 500 and the mint
endpoint hands out `T2`. -/
def envRevokeFails : Env :=
  { baseEnv with
    revoke := { transportErr := false, status := 500 },
    mintBody := some [("access_token", "T2")] }

/-- Like `envRevokeFails`, with a very stale cache file on disk. -/
def envRevokeFailsStale : Env :=
  { envRevokeFails with tokenFile := some ("old-cached", 0) }

/-- A GraphQL-level error object, as a response body. -/
def errorsBody : Json :=
  .obj [("errors", .arr [.obj [("message", .str "bad field")]])]

/-- Environment where the query endpoint answers 300 with a decodable
GraphQL error body. -/
def envQuery300 : Env :=
  { baseEnv with
    queryResp := { transportErr := false, status := 300 },
    queryBody := some errorsBody }

/-- Environment where the query endpoint answers 200 with an undecodable
body. -/
def envQueryBadBody : Env := { baseEnv with queryBody := none }

/-! ### Helper lemmas (shared, not tied to a single claim) -/

/-- `__close_session` always emits exactly the revoke `DELETE` and returns:
on a successful revoke the token is cleared, on any failure the state of
the moment of the raise — unchanged — is kept. -/
theorem close_session_priv_spec (env : Env) (st : ClientState) :
    close_session_priv env st =
      ([Event.httpDelete (st.base_url ++ "/" ++ st.options.session)],
       if env.revoke.transportErr = false ∧
          statusRaises env.revoke.status = false
       then { st with token := "" } else st) := by
  unfold close_session_priv delete_token
  cases h1 : env.revoke.transportErr <;>
    cases h2 : statusRaises env.revoke.status <;>
    simp [h1, h2]

/-- Successful key-file read: parsed dict kept, base URL derived. -/
theorem read_key_file_ok (env : Env) (st : ClientState) (f : Files)
    (jk : List (String × String)) (uri : String)
    (hf : st.files = some f) (hkey : env.keyJson = .ok jk)
    (huri : jk.lookup "access_token_uri" = some uri) :
    read_key_file env st =
      ([.readKeyFile f.key],
       .ok { st with json_key := jk, base_url := stripLastSegment uri }) := by
  simp [read_key_file, hf, hkey, huri]

/-- Reading an over-age cache file under `manage_token`: the cached value
is adopted, then the best-effort revoke runs (clearing the token on
success, keeping the freshly adopted stale value on failure) and the
function reports `false`. -/
theorem read_token_file_stale (env : Env) (st : ClientState) (f : Files)
    (text : String) (mtime : Nat)
    (hf : st.files = some f) (hm : st.options.manage_token = true)
    (hcache : env.tokenFile = some (text, mtime))
    (hstale : mtime + TOKEN_LIFESPAN_SECONDS < env.now) :
    read_token_file env st =
      ([.readTokenFile f.token,
        .httpDelete (st.base_url ++ "/" ++ st.options.session)],
       .ok (if env.revoke.transportErr = false ∧
               statusRaises env.revoke.status = false
            then { st with token := "" }
            else { st with token := text.trim }, false)) := by
  simp [read_token_file, hf, hcache, hm, hstale, close_session_priv_spec]

/-- Reading a cache file that the expiry test does not reject: the cached
value is adopted verbatim (after trimming) and the function reports
`true`, with no HTTP traffic. -/
theorem read_token_file_fresh (env : Env) (st : ClientState) (f : Files)
    (text : String) (mtime : Nat)
    (hf : st.files = some f) (hcache : env.tokenFile = some (text, mtime))
    (hfresh : ¬(st.options.manage_token = true ∧
                mtime + TOKEN_LIFESPAN_SECONDS < env.now)) :
    read_token_file env st =
      ([.readTokenFile f.token], .ok ({ st with token := text.trim }, true))
    := by
  simp only [read_token_file, hf, hcache]
  rw [if_neg]
  simpa using hfresh

/-- Whatever the mint endpoint answers, a mint attempt with a complete
credential dict puts exactly one `POST` (and no revoke) on the wire. -/
theorem get_access_token_keyfile_session_http (env : Env)
    (st : ClientState) (uri cid csec nm : String)
    (huri : st.json_key.lookup "access_token_uri" = some uri)
    (hcid : st.json_key.lookup "client_id" = some cid)
    (hcsec : st.json_key.lookup "client_secret" = some csec)
    (hnm : st.json_key.lookup "name" = some nm) :
    (get_access_token_keyfile env st).1.filter Event.isSessionHttp =
      [.httpPost uri
        [("client_id", cid), ("client_secret", csec), ("name", nm)]] := by
  simp only [get_access_token_keyfile, huri, hcid, hcsec, hnm]
  repeat' split
  all_goals simp [Event.isSessionHttp, Event.isRevoke, Event.isMint]

/-- Successful mint: the token from the response body is adopted and, when
`keep_token` is set, written to the cache file. -/
theorem get_access_token_keyfile_ok (env : Env) (st : ClientState)
    (f : Files) (uri cid csec nm tok : String)
    (mb : List (String × String))
    (huri : st.json_key.lookup "access_token_uri" = some uri)
    (hcid : st.json_key.lookup "client_id" = some cid)
    (hcsec : st.json_key.lookup "client_secret" = some csec)
    (hnm : st.json_key.lookup "name" = some nm)
    (htr : env.mintResp.transportErr = false)
    (hstat : statusRaises env.mintResp.status = false)
    (hbody : env.mintBody = some mb)
    (htok : mb.lookup "access_token" = some tok)
    (hf : st.files = some f) :
    get_access_token_keyfile env st =
      (if st.options.keep_token then
        ([.httpPost uri
            [("client_id", cid), ("client_secret", csec), ("name", nm)],
          .writeTokenFile f.token tok], .ok { st with token := tok })
       else
        ([.httpPost uri
            [("client_id", cid), ("client_secret", csec), ("name", nm)]],
         .ok { st with token := tok })) := by
  simp only [get_access_token_keyfile, huri, hcid, hcsec, hnm, htr, hstat,
    hbody, htok, hf]
  cases h : st.options.keep_token <;> simp [h]

/-- Full run of a construction over a stale cache with `manage_token` and
`keep_token` both set and a healthy mint endpoint: one revoke attempt
(whatever its outcome), one mint, one cache write, minted token adopted. -/
theorem init_stale_cache_run (path : String) (kw : Kwargs)
    (env : Env) (jk mb : List (String × String))
    (text uri cid csec nm tok : String) (mtime : Nat)
    (hpath : path ≠ "")
    (hm : kw.manage_token.getD true = true)
    (hkeep : kw.keep_token.getD true = true)
    (hkey : env.keyJson = .ok jk)
    (huri : jk.lookup "access_token_uri" = some uri)
    (hcid : jk.lookup "client_id" = some cid)
    (hcsec : jk.lookup "client_secret" = some csec)
    (hnm : jk.lookup "name" = some nm)
    (hcache : env.tokenFile = some (text, mtime))
    (hstale : mtime + TOKEN_LIFESPAN_SECONDS < env.now)
    (htr : env.mintResp.transportErr = false)
    (hstat : statusRaises env.mintResp.status = false)
    (hbody : env.mintBody = some mb)
    (htok : mb.lookup "access_token" = some tok) :
    (init (some path) kw env).1 =
      [.readKeyFile path,
       .readTokenFile (Files.set_key_file path).token,
       .httpDelete (stripLastSegment uri ++ "/" ++ kw.session.getD "session"),
       .httpPost uri
         [("client_id", cid), ("client_secret", csec), ("name", nm)],
       .writeTokenFile (Files.set_key_file path).token tok] ∧
    countRevokes (init (some path) kw env).1 = 1 ∧
    countMints (init (some path) kw env).1 = 1 ∧
    resultToken (init (some path) kw env) = some tok := by
  have htruthy : keyfileTruthy (some path) = true := by
    simp [keyfileTruthy, hpath]
  by_cases hrev : env.revoke.transportErr = false ∧
      statusRaises env.revoke.status = false <;>
  · simp [init, htruthy, manage_session, read_key_file, hkey, huri, hm,
      hkeep, read_token_file, hcache, hstale, close_session_priv_spec,
      hrev, get_access_token_keyfile, hcid, hcsec, hnm, htr, hstat,
      hbody, htok, Files.set_key_file, countRevokes, countMints,
      resultToken, Event.isRevoke, Event.isMint]

/-- Full run of a construction over a cache the expiry test accepts, with
`manage_token` and `keep_token` both set: the cached value is adopted and
no session-endpoint traffic happens at all. -/
theorem init_fresh_cache_run (path : String) (kw : Kwargs) (env : Env)
    (jk : List (String × String)) (text uri : String) (mtime : Nat)
    (hpath : path ≠ "")
    (hm : kw.manage_token.getD true = true)
    (hkeep : kw.keep_token.getD true = true)
    (hkey : env.keyJson = .ok jk)
    (huri : jk.lookup "access_token_uri" = some uri)
    (hcache : env.tokenFile = some (text, mtime))
    (hfresh : ¬mtime + TOKEN_LIFESPAN_SECONDS < env.now) :
    (init (some path) kw env).1 =
      [.readKeyFile path,
       .readTokenFile (Files.set_key_file path).token] ∧
    countMints (init (some path) kw env).1 = 0 ∧
    countRevokes (init (some path) kw env).1 = 0 ∧
    resultToken (init (some path) kw env) = some text.trim := by
  have htruthy : keyfileTruthy (some path) = true := by
    simp [keyfileTruthy, hpath]
  simp [init, htruthy, manage_session, read_key_file, hkey, huri, hm,
    hkeep, read_token_file, hcache, hfresh, Files.set_key_file,
    countMints, countRevokes, resultToken, Event.isMint, Event.isRevoke]

theorem noFileDelete_append (a b : List Event) :
    noFileDelete (a ++ b) = (noFileDelete a && noFileDelete b) := by
  simp [noFileDelete]

theorem nfd_read_key_file (env : Env) (st : ClientState) :
    noFileDelete (read_key_file env st).1 = true := by
  unfold read_key_file
  repeat' split
  all_goals simp [noFileDelete, Event.isFileDelete]

theorem nfd_close_session_priv (env : Env) (st : ClientState) :
    noFileDelete (close_session_priv env st).1 = true := by
  rw [close_session_priv_spec]
  simp [noFileDelete, Event.isFileDelete]

theorem nfd_read_token_file (env : Env) (st : ClientState) :
    noFileDelete (read_token_file env st).1 = true := by
  unfold read_token_file
  simp only [close_session_priv_spec]
  repeat' split
  all_goals simp [noFileDelete, Event.isFileDelete]

theorem nfd_get_access_token_keyfile (env : Env) (st : ClientState) :
    noFileDelete (get_access_token_keyfile env st).1 = true := by
  unfold get_access_token_keyfile
  repeat' split
  all_goals try simp [noFileDelete, Event.isFileDelete]
  all_goals repeat' split
  all_goals simp [noFileDelete, Event.isFileDelete]

theorem nfd_manage_session (env : Env) (st : ClientState) :
    noFileDelete (manage_session env st).1 = true := by
  have k1 := nfd_read_key_file env st
  unfold manage_session
  rcases h1 : read_key_file env st with ⟨tr1, r1⟩
  rw [h1] at k1
  cases r1 with
  | error e => simpa using k1
  | ok st1 =>
    simp only [] at k1 ⊢
    by_cases hm : st1.options.manage_token = true
    · by_cases hk : st1.options.keep_token = true
      · have k2 := nfd_read_token_file env st1
        rcases h2 : read_token_file env st1 with ⟨tr2, r2⟩
        rw [h2] at k2
        simp only [hm, hk, if_true, h2]
        cases r2 with
        | error e => simp_all [noFileDelete_append]
        | ok p =>
          rcases p with ⟨st2, found⟩
          cases found with
          | true => simp_all [noFileDelete_append]
          | false =>
            have k3 := nfd_get_access_token_keyfile env st2
            rcases h3 : get_access_token_keyfile env st2 with ⟨tr3, r3⟩
            rw [h3] at k3
            cases r3 <;> simp_all [noFileDelete_append]
      · have k3 := nfd_get_access_token_keyfile env st1
        rcases h3 : get_access_token_keyfile env st1 with ⟨tr3, r3⟩
        rw [h3] at k3
        simp only [hm, if_true, eq_false_of_ne_true hk, if_false, h3]
        cases r3 <;> simp_all [noFileDelete_append]
    · simp_all

theorem nfd_init (json_keyfile : Option String) (kw : Kwargs) (env : Env) :
    noFileDelete (init json_keyfile kw env).1 = true := by
  unfold init
  split
  · exact nfd_manage_session env _
  · simp [noFileDelete]

theorem nfd_renew_token (env : Env) (st : ClientState) :
    noFileDelete (renew_token env st).1 = true := by
  have k1 := nfd_read_key_file env st
  unfold renew_token
  rcases h1 : read_key_file env st with ⟨tr1, r1⟩
  rw [h1] at k1
  cases r1 with
  | error e => simpa using k1
  | ok st1 =>
    have k2 := nfd_close_session_priv env st1
    have k3 := nfd_get_access_token_keyfile env (close_session_priv env st1).2
    rcases h3 : get_access_token_keyfile env (close_session_priv env st1).2
      with ⟨tr3, r3⟩
    rw [h3] at k3
    cases r3 <;> simp_all [noFileDelete_append]

theorem nfd_close_session (env : Env) (st : ClientState) :
    noFileDelete (close_session env st).1 = true := by
  unfold close_session
  repeat' split
  all_goals
    simp [noFileDelete, close_session_priv_spec, Event.isFileDelete]

theorem nfd_query (env : Env) (st : ClientState) (q : String)
    (v : Option (List (String × Json))) :
    noFileDelete (query env st q v).1 = true := by
  unfold query
  repeat' split
  all_goals simp [noFileDelete, Event.isFileDelete]

/-! ### Claims -/

/-- C1: the claim says that a construction with a credential file and
`manage_token = false` adopts an existing cache value verbatim.  The code
does not: the guard in `__manage_session` short-circuits on
`manage_token`, so `__read_token_file` is never called and the session
token stays empty.  Evaluated at the failing input — credential file plus
an arbitrarily stale cache file, `manage_token=False` — the whole trace is
the single key-file read (no cache read, no HTTP), and the resulting token
is `""`, not the cached value.  (The unreachable `manage_token=False`
branch of `__read_token_file`, message `TOKEN_KEEP_OPT`, documents the
intended behaviour the claim describes.) -/
theorem c1_manage_token_false_cache_never_read :
    (init (some "/cfg/key.json") { manage_token := some false }
        envStale).1 = [Event.readKeyFile "/cfg/key.json"] ∧
    resultToken
      (init (some "/cfg/key.json") { manage_token := some false }
        envStale) = some "" := by
  constructor <;> rfl

/-- C2 counterexample: revoking the token of an ephemeral-token session
(`manage_token=True`, `keep_token=False`) with a successful `DELETE`
clears the in-memory token, yet a pre-existing cache file survives with
its old content — the claim says the on-disk cache file is deleted when
the token is revoked. -/
theorem c2_close_ephemeral_cache_file_survives :
    (close_session baseEnv stEphemeral).2.token = "" ∧
    applyTrace fsOld (close_session baseEnv stEphemeral).1
      "/cfg/key.token" = some "oldtok" := by
  constructor <;> rfl

/-- C2 amended: when a cached token is revoked or found expired, only the
in-memory token is cleared; the on-disk cache file is never deleted by any
operation of the client (construction, renew, close or query) — at most it
is later overwritten by a fresh mint with `keep_token` set. -/
theorem c2_no_operation_deletes_cache_file (json_keyfile : Option String)
    (kw : Kwargs) (env : Env) (st : ClientState) (q : String)
    (v : Option (List (String × Json))) :
    noFileDelete (init json_keyfile kw env).1 = true ∧
    noFileDelete (renew_token env st).1 = true ∧
    noFileDelete (close_session env st).1 = true ∧
    noFileDelete (query env st q v).1 = true :=
  ⟨nfd_init json_keyfile kw env, nfd_renew_token env st,
   nfd_close_session env st, nfd_query env st q v⟩

/-- C3 counterexample: a construction with `manage_token=True`,
`keep_token=False` and a stale cache file issues zero revoke requests
(the cache is never consulted), not exactly one as the claim states. -/
theorem c3_stale_cache_keep_false_no_revoke :
    countRevokes (init (some "/cfg/key.json")
      { keep_token := some false } envStale).1 = 0 ∧
    countMints (init (some "/cfg/key.json")
      { keep_token := some false } envStale).1 = 1 := by
  constructor <;> rfl

/-- C3 amended: for every construction with a credential file holding the
four fields, `manage_token = true`, `keep_token = true` (the default with
a credential file), an existing cache file older than the lifespan and a
working mint endpoint, construction issues exactly one best-effort revoke
followed by exactly one mint request. -/
theorem c3_stale_cache_revoke_then_mint (path : String) (kw : Kwargs)
    (env : Env) (jk mb : List (String × String))
    (text uri cid csec nm tok : String) (mtime : Nat)
    (hpath : path ≠ "")
    (hm : kw.manage_token.getD true = true)
    (hkeep : kw.keep_token.getD true = true)
    (hkey : env.keyJson = .ok jk)
    (huri : jk.lookup "access_token_uri" = some uri)
    (hcid : jk.lookup "client_id" = some cid)
    (hcsec : jk.lookup "client_secret" = some csec)
    (hnm : jk.lookup "name" = some nm)
    (hcache : env.tokenFile = some (text, mtime))
    (hstale : mtime + TOKEN_LIFESPAN_SECONDS < env.now)
    (htr : env.mintResp.transportErr = false)
    (hstat : statusRaises env.mintResp.status = false)
    (hbody : env.mintBody = some mb)
    (htok : mb.lookup "access_token" = some tok) :
    (init (some path) kw env).1 =
      [.readKeyFile path,
       .readTokenFile (Files.set_key_file path).token,
       .httpDelete (stripLastSegment uri ++ "/" ++ kw.session.getD "session"),
       .httpPost uri
         [("client_id", cid), ("client_secret", csec), ("name", nm)],
       .writeTokenFile (Files.set_key_file path).token tok] ∧
    countRevokes (init (some path) kw env).1 = 1 ∧
    countMints (init (some path) kw env).1 = 1 ∧
    resultToken (init (some path) kw env) = some tok :=
  init_stale_cache_run path kw env jk mb text uri cid csec nm tok mtime
    hpath hm hkeep hkey huri hcid hcsec hnm hcache hstale htr hstat hbody
    htok

/-- C3 witness: the amended theorem applied to a concrete stale-cache
construction. -/
theorem c3_stale_cache_revoke_then_mint_witness :
    (init (some "/cfg/key.json") {} envStale).1 =
      [.readKeyFile "/cfg/key.json",
       .readTokenFile (Files.set_key_file "/cfg/key.json").token,
       .httpDelete (stripLastSegment "https://api.example.com/oauth/token"
         ++ "/" ++ "session"),
       .httpPost "https://api.example.com/oauth/token"
         [("client_id", "a"), ("client_secret", "b"), ("name", "c")],
       .writeTokenFile (Files.set_key_file "/cfg/key.json").token "T1"] ∧
    countRevokes (init (some "/cfg/key.json") {} envStale).1 = 1 ∧
    countMints (init (some "/cfg/key.json") {} envStale).1 = 1 ∧
    resultToken (init (some "/cfg/key.json") {} envStale) = some "T1" :=
  c3_stale_cache_revoke_then_mint "/cfg/key.json" {} envStale kj0
    [("access_token", "T1")] "old-cached"
    "https://api.example.com/oauth/token" "a" "b" "c" "T1" 0 (by decide)
    rfl rfl rfl rfl rfl rfl rfl rfl (by decide) rfl rfl rfl rfl

/-- C4 counterexample: a construction with `manage_token=True`,
`keep_token=False` and a cache file well inside its lifespan still issues
one mint request and ends with the minted token, not the cached one — the
claim predicted zero mints and adoption of the cached value. -/
theorem c4_fresh_cache_keep_false_still_mints :
    countMints (init (some "/cfg/key.json")
      { keep_token := some false } envFresh).1 = 1 ∧
    resultToken (init (some "/cfg/key.json")
      { keep_token := some false } envFresh) = some "T1" := by
  constructor <;> rfl

/-- C4 amended: for every construction with a credential file,
`manage_token = true`, `keep_token = true` (the default with a credential
file) and an existing cache file whose age is at most the lifespan,
construction adopts the trimmed cached value as the session token and
issues zero mint (and zero revoke) requests. -/
theorem c4_fresh_cache_reused_no_mint (path : String) (kw : Kwargs)
    (env : Env) (jk : List (String × String)) (text uri : String)
    (mtime : Nat)
    (hpath : path ≠ "")
    (hm : kw.manage_token.getD true = true)
    (hkeep : kw.keep_token.getD true = true)
    (hkey : env.keyJson = .ok jk)
    (huri : jk.lookup "access_token_uri" = some uri)
    (hcache : env.tokenFile = some (text, mtime))
    (hfresh : ¬mtime + TOKEN_LIFESPAN_SECONDS < env.now) :
    (init (some path) kw env).1 =
      [.readKeyFile path,
       .readTokenFile (Files.set_key_file path).token] ∧
    countMints (init (some path) kw env).1 = 0 ∧
    countRevokes (init (some path) kw env).1 = 0 ∧
    resultToken (init (some path) kw env) = some text.trim :=
  init_fresh_cache_run path kw env jk text uri mtime hpath hm hkeep hkey
    huri hcache hfresh

/-- C4 witness: the amended theorem applied to a concrete construction
over a cache file aged under one hour. -/
theorem c4_fresh_cache_reused_no_mint_witness :
    (init (some "/cfg/key.json") {} envFresh).1 =
      [.readKeyFile "/cfg/key.json",
       .readTokenFile (Files.set_key_file "/cfg/key.json").token] ∧
    countMints (init (some "/cfg/key.json") {} envFresh).1 = 0 ∧
    countRevokes (init (some "/cfg/key.json") {} envFresh).1 = 0 ∧
    resultToken (init (some "/cfg/key.json") {} envFresh) =
      some ("cached-tok\n".trim) :=
  c4_fresh_cache_reused_no_mint "/cfg/key.json" {} envFresh kj0
    "cached-tok\n" "https://api.example.com/oauth/token" 999000
    (by decide) rfl rfl rfl rfl rfl (by decide)

/-- C5 counterexample: a credential file with a well-formed
`access_token_uri` but empty `client_id`, `client_secret` and `name` is
accepted: parsing succeeds, the mint request goes out to the valid URL
carrying the three empty strings in its payload, and construction
completes with the token the endpoint hands back — the claim says a
credential file with any empty field fails parsing with a fatal
configuration error and construction never succeeds. -/
theorem c5_empty_credential_fields_accepted :
    (init (some "/cfg/key.json") {} envEmptyCredValues).1 =
      [.readKeyFile "/cfg/key.json",
       .httpPost "https://api.example.com/oauth/token"
         [("client_id", ""), ("client_secret", ""), ("name", "")],
       .writeTokenFile (Files.set_key_file "/cfg/key.json").token "T1"] ∧
    resultToken (init (some "/cfg/key.json") {} envEmptyCredValues) =
      some "T1" ∧
    countMints (init (some "/cfg/key.json") {} envEmptyCredValues).1 = 1
    := by
  refine ⟨rfl, rfl, rfl⟩

/-- C5 amended: an *absent* field fails construction with a `KeyError` at
the point it is accessed: `access_token_uri` whenever the key file is
parsed, `client_id`/`client_secret`/`name` only when a mint is attempted
(and then before any request is sent); present-but-empty values are not
validated. -/
theorem c5_missing_field_key_error (path : String) (kw : Kwargs)
    (env : Env) (jk : List (String × String))
    (hpath : path ≠ "") (hkey : env.keyJson = .ok jk) :
    (jk.lookup "access_token_uri" = none →
      resultErr (init (some path) kw env) =
        some (.keyError "access_token_uri")) ∧
    (∀ uri, jk.lookup "access_token_uri" = some uri →
      jk.lookup "client_id" = none →
      kw.manage_token.getD true = true →
      kw.keep_token = some false →
      resultErr (init (some path) kw env) =
        some (.keyError "client_id") ∧
      countMints (init (some path) kw env).1 = 0) := by
  have htruthy : keyfileTruthy (some path) = true := by
    simp [keyfileTruthy, hpath]
  constructor
  · intro hnone
    simp [init, htruthy, manage_session, read_key_file, hkey, hnone,
      resultErr]
  · intro uri huri hnocid hm hkeepf
    constructor <;>
      simp [init, htruthy, manage_session, read_key_file, hkey, huri, hm,
        hkeepf, get_access_token_keyfile, hnocid, resultErr, countMints,
        Event.isMint]

/-- C5 witness: the amended theorem applied to a file lacking
`access_token_uri` (fails at parse time) and to a file lacking
`client_id` on a mint path (fails before the request). -/
theorem c5_missing_field_key_error_witness :
    resultErr (init (some "/cfg/key.json") {} envNoUri) =
      some (.keyError "access_token_uri") ∧
    (resultErr (init (some "/cfg/key.json") { keep_token := some false }
        envNoCid) = some (.keyError "client_id") ∧
     countMints (init (some "/cfg/key.json") { keep_token := some false }
        envNoCid).1 = 0) :=
  ⟨(c5_missing_field_key_error "/cfg/key.json" {} envNoUri
      [("client_id", "a")] (by decide) rfl).1 rfl,
   (c5_missing_field_key_error "/cfg/key.json" { keep_token := some false }
      envNoCid [("access_token_uri", "u")] (by decide) rfl).2 "u" rfl rfl
      rfl rfl⟩

/-- C6 counterexample: an explicit `renew_token` whose revoke `DELETE`
answers 500 still succeeds (the failure is swallowed by
`__close_session`), and an explicit `close_session` on an ephemeral
session with the same failing revoke completes normally with the token
untouched — the claim says the failure propagates as an error on these
paths. -/
theorem c6_renew_and_close_swallow_revoke_failure :
    resultToken (renew_token envRevokeFails stAuth) = some "T2" ∧
    (close_session envRevokeFails stEphemeral).2.token = "T1" := by
  constructor <;> rfl

/-- C6 amended: a failing revoke request (non-2xx or transport error) is
logged and tolerated on *every* path — the expiry path during
construction, an explicit `renew_token` and an explicit `close_session`
all complete without propagating the revoke failure. -/
theorem c6_revoke_failures_never_propagate (env : Env) (st : ClientState)
    (f : Files) (jk mb : List (String × String)) (path : String)
    (kw : Kwargs) (text uri cid csec nm tok : String) (mtime : Nat)
    (hrev : env.revoke.transportErr = true ∨
            statusRaises env.revoke.status = true)
    (hf : st.files = some f)
    (hkey : env.keyJson = .ok jk)
    (huri : jk.lookup "access_token_uri" = some uri)
    (hcid : jk.lookup "client_id" = some cid)
    (hcsec : jk.lookup "client_secret" = some csec)
    (hnm : jk.lookup "name" = some nm)
    (htr : env.mintResp.transportErr = false)
    (hstat : statusRaises env.mintResp.status = false)
    (hbody : env.mintBody = some mb)
    (htok : mb.lookup "access_token" = some tok)
    (hpath : path ≠ "")
    (hm : kw.manage_token.getD true = true)
    (hkeep : kw.keep_token.getD true = true)
    (hcache : env.tokenFile = some (text, mtime))
    (hstale : mtime + TOKEN_LIFESPAN_SECONDS < env.now) :
    (close_session env st).2.token = st.token ∧
    resultToken (renew_token env st) = some tok ∧
    resultToken (init (some path) kw env) = some tok := by
  have hrev' : ¬(env.revoke.transportErr = false ∧
      statusRaises env.revoke.status = false) := by
    rcases hrev with h | h <;> simp [h]
  refine ⟨?_, ?_, ?_⟩
  · unfold close_session
    repeat' split
    · rfl
    · rw [close_session_priv_spec]
      simp [hrev']
    · rfl
  · cases hkp : st.options.keep_token <;>
      simp [renew_token, read_key_file, hf, hkey, huri,
        close_session_priv_spec, hrev', get_access_token_keyfile, hcid,
        hcsec, hnm, htr, hstat, hbody, htok, resultToken, hkp]
  · exact (init_stale_cache_run path kw env jk mb text uri cid csec nm tok
      mtime hpath hm hkeep hkey huri hcid hcsec hnm hcache hstale htr
      hstat hbody htok).2.2.2

/-- C6 witness: the amended theorem applied to a 500-answering revoke
endpoint with a healthy mint endpoint and a stale cache. -/
theorem c6_revoke_failures_never_propagate_witness :
    (close_session envRevokeFailsStale stAuth).2.token = stAuth.token ∧
    resultToken (renew_token envRevokeFailsStale stAuth) = some "T2" ∧
    resultToken (init (some "/cfg/key.json") {} envRevokeFailsStale) =
      some "T2" :=
  c6_revoke_failures_never_propagate envRevokeFailsStale stAuth
    ⟨"/cfg/key.json", "/cfg/key.token"⟩ kj0 [("access_token", "T2")]
    "/cfg/key.json" {} "old-cached"
    "https://api.example.com/oauth/token" "a" "b" "c" "T2" 0
    (Or.inr rfl) rfl rfl rfl rfl rfl rfl rfl rfl rfl rfl (by decide) rfl
    rfl rfl (by decide)

/-- C7: for every session with `keep_token = true` or
`manage_token = false`, `close_session` is a strict no-op: empty trace (no
revoke request, cache file untouched) and the state — in particular the
in-memory token — unchanged; the call returns normally (the source logs
`CLOSE_SESSION_ERR` instead of raising). -/
theorem c7_close_session_keep_token_noop (env : Env) (st : ClientState)
    (h : st.options.keep_token = true ∨ st.options.manage_token = false) :
    close_session env st = ([], st) := by
  unfold close_session
  rcases h with h | h <;> simp [h]

/-- C7 witness: `close_session` on a default authenticated client
(`keep_token = true`). -/
theorem c7_close_session_keep_token_noop_witness :
    close_session baseEnv stAuth = ([], stAuth) :=
  c7_close_session_keep_token_noop baseEnv stAuth (Or.inl rfl)

/-- C8 counterexample: a final status 300 (non-2xx, outside
`raise_for_status`'s 400–599 range) with a decodable body is *returned*,
not raised — against the claim's "raises exactly when non-2xx"; and a 200
with an undecodable body raises a decode error although the status is
2xx and the transport worked. -/
theorem c8_non2xx_and_decode_counterexample :
    (query envQuery300 stAuth "q" none).2 = .ok errorsBody ∧
    (query envQueryBadBody stAuth "q" none).2 =
      .error (.jsonDecodeError, stAuth) := by
  constructor <;> rfl

/-- C8 amended: `query` raises exactly when the transport fails, the
status is in `raise_for_status`'s 400–599 range, or the body is not
decodable JSON; in every other case the decoded body is returned
unmodified, even when it encodes a GraphQL-level error object. -/
theorem c8_query_result_spec (env : Env) (st : ClientState) (q : String)
    (v : Option (List (String × Json))) :
    ∀ j, (query env st q v).2 = .ok j ↔
      (env.queryResp.transportErr = false ∧
       statusRaises env.queryResp.status = false ∧
       env.queryBody = some j) := by
  intro j
  unfold query
  cases h1 : env.queryResp.transportErr
  · cases h2 : statusRaises env.queryResp.status
    · cases h3 : env.queryBody <;> simp [h1, h2, h3]
    · simp [h1, h2]
  · simp [h1]

/-- C8 witness: the amended theorem applied to a 200 response carrying a
decodable body. -/
theorem c8_query_result_spec_witness :
    (query baseEnv stAuth "q" none).2 = .ok (.obj []) :=
  (c8_query_result_spec baseEnv stAuth "q" none (.obj [])).mpr
    ⟨rfl, rfl, rfl⟩

/-- C9: anonymous construction succeeds, and `close_session` on it is a
logged no-op; but `renew_token` reaches `self.__files` — an attribute the
anonymous path never assigns — and crashes with an `AttributeError`
(before any file or network activity), against the claim that these calls
never crash from uninitialized credential-file state. -/
theorem c9_anonymous_renew_attribute_error :
    init none { base_url := some "https://fruits-api.netlify.app" }
        baseEnv = ([], .ok anonState) ∧
    resultErr (renew_token baseEnv anonState) =
      some (.attributeError "_GraphClient__files") ∧
    (renew_token baseEnv anonState).1 = [] ∧
    close_session baseEnv anonState = ([], anonState) :=
  ⟨rfl, rfl, rfl, rfl⟩

/-- C10: on the best-effort revoke path (`__close_session`), the
in-memory token is cleared exactly when the HTTP `DELETE` succeeds
(transport ok and status outside 400–599); on any failure the state of
the moment of the raise — token included — is kept unchanged. -/
theorem c10_token_cleared_only_on_successful_revoke (env : Env)
    (st : ClientState) :
    close_session_priv env st =
      ([Event.httpDelete (st.base_url ++ "/" ++ st.options.session)],
       if env.revoke.transportErr = false ∧
          statusRaises env.revoke.status = false
       then { st with token := "" } else st) :=
  close_session_priv_spec env st

end GraphQLClient
